import Mathlib

/-!
Shallow embedding of the Vomo microphone-controlled side-scroller core:
the audio intensity mapper (src/game/app/utils/audioUtils.ts), the obstacle
generator and lifecycle updater (src/game/app/components/ObstacleManager.tsx),
and the game engine physics, collision resolver, and per-tick loop
(src/game/app/components/GameEngine.tsx).  All JavaScript numbers are modelled
as rationals; optional fields of the obstacle record are modelled as Option
with explicit JavaScript truthiness semantics.
-/

namespace Vomo

/-! Constants from GameEngine.tsx. -/

def GRAVITY : ℚ := 0.5

def MAX_JUMP_VELOCITY : ℚ := -15

def GROUND_HEIGHT : ℚ := 50

def PLAYER_WIDTH : ℚ := 40

def PLAYER_HEIGHT : ℚ := 40

/-! Constants from audioUtils.ts. -/

def SMOOTHING_FACTOR : ℚ := 0.3

def MIN_INTENSITY_THRESHOLD : ℚ := 0.05

def MAX_INTENSITY : ℚ := 0.8

/-- One smoothing update of the stored intensity, from getAudioIntensity:
smoothedIntensity := SMOOTHING_FACTOR * rawIntensity
  + (1 - SMOOTHING_FACTOR) * smoothedIntensity. -/
def smoothStep (prev raw : ℚ) : ℚ :=
  SMOOTHING_FACTOR * raw + (1 - SMOOTHING_FACTOR) * prev

/-- The stored smoothed intensity after n samples of the raw sequence,
starting from the initial stored value s0 (the source initialises it to 0). -/
def smoothSeq (s0 : ℚ) (raw : ℕ → ℚ) : ℕ → ℚ
  | 0 => s0
  | n + 1 => smoothStep (smoothSeq s0 raw n) (raw n)

/-- Final normalisation of getAudioIntensity:
min (smoothedIntensity / MAX_INTENSITY) 1. -/
def normalizeIntensity (smoothed : ℚ) : ℚ :=
  min (smoothed / MAX_INTENSITY) 1

/-- getJumpPower from audioUtils.ts as a function of the current intensity. -/
def getJumpPower (intensity : ℚ) : ℚ :=
  if intensity ≤ MIN_INTENSITY_THRESHOLD then 0
  else 0.3 + (intensity - MIN_INTENSITY_THRESHOLD) / (1 - MIN_INTENSITY_THRESHOLD) * (1 - 0.3)

/-- shouldJump from audioUtils.ts as a function of the current intensity. -/
def shouldJumpAt (intensity : ℚ) : Bool :=
  decide (intensity > MIN_INTENSITY_THRESHOLD)

/-! Obstacle data model from ObstacleManager.tsx. -/

inductive ObstacleType
  | SPIKE
  | MOVING_SPIKE
  | COLLAPSING_BRIDGE
  | VARIABLE_GROUND
deriving DecidableEq

structure Obstacle where
  id : String
  type : ObstacleType
  x : ℚ
  y : ℚ
  width : ℚ
  height : ℚ
  active : Bool
  direction : Option ℚ := none
  speed : Option ℚ := none
  integrity : Option ℚ := none
  collapseDelay : Option ℚ := none
  elevation : Option ℚ := none
deriving DecidableEq

/-- JavaScript a || b for an optional numeric field: b when the field is
absent or 0 (both are falsy), the stored value otherwise. -/
def jsOrElse (a : Option ℚ) (b : ℚ) : ℚ :=
  match a with
  | none => b
  | some v => if v = 0 then b else v

/-- JavaScript truthiness of an optional numeric field: undefined and 0 are
falsy, every other number is truthy. -/
def jsTruthy (a : Option ℚ) : Bool :=
  match a with
  | none => false
  | some v => decide (v ≠ 0)

/-! Difficulty scaling from ObstacleManager.tsx (getDifficulty). -/

/-- baseDifficulty = min 1 (playerScore / 100). -/
def getDifficulty (playerScore : ℚ) : ℚ :=
  min 1 (playerScore / 100)

/-- The spawn interval assignment inside getDifficulty:
max 800 (2500 - 1700 * baseDifficulty). -/
def spawnRate (playerScore : ℚ) : ℚ :=
  max 800 (2500 - 1700 * getDifficulty playerScore)

/-- obstacleSpeed assignment inside getDifficulty: 3 + 4 * baseDifficulty. -/
def obstacleSpeedAt (playerScore : ℚ) : ℚ :=
  3 + 4 * getDifficulty playerScore

/-- The archetype selection of generateObstacle over the uniform draw
typeRandom = Math.random(). -/
def chooseObstacleType (typeRandom : ℚ) : ObstacleType :=
  if typeRandom < 0.4 then ObstacleType.SPIKE
  else if typeRandom < 0.7 then ObstacleType.MOVING_SPIKE
  else if typeRandom < 0.85 then ObstacleType.VARIABLE_GROUND
  else ObstacleType.COLLAPSING_BRIDGE

/-- generateObstacle from ObstacleManager.tsx.  The identifier and every
Math.random() draw are passed explicitly: typeRandom selects the archetype,
r1 and r2 are the geometry draws of the selected branch in source order, and
r3 is the direction draw of the MovingSpike branch. -/
def generateObstacle (gameWidth gameHeight groundHeight playerScore : ℚ)
    (obstacleId : String) (typeRandom r1 r2 r3 : ℚ) : Obstacle :=
  let difficulty := getDifficulty playerScore
  let ty := chooseObstacleType typeRandom
  let base : Obstacle :=
    { id := obstacleId, type := ty, x := gameWidth, y := 0,
      width := 0, height := 0, active := true }
  match ty with
  | ObstacleType.SPIKE =>
      let h := 30 + r1 * 20
      { base with width := 20, height := h, y := gameHeight - groundHeight - h }
  | ObstacleType.MOVING_SPIKE =>
      let h := 20 + r1 * 30
      { base with
          width := 20, height := h,
          y := gameHeight - groundHeight - h - r2 * 30,
          direction := some (if r3 > 0.5 then 1 else -1),
          speed := some (1 + difficulty * 2) }
  | ObstacleType.COLLAPSING_BRIDGE =>
      { base with
          width := 80 + r1 * 60, height := 15,
          y := gameHeight - groundHeight,
          integrity := some 100,
          collapseDelay := some (500 - difficulty * 300) }
  | ObstacleType.VARIABLE_GROUND =>
      { base with
          width := 100 + r1 * 150, height := groundHeight,
          y := gameHeight - groundHeight,
          elevation := some ((round (20 + r2 * 40 * difficulty) : ℤ) : ℚ) }

/-- One obstacle of the map inside updateObstacles: decrement x by the
current speed, deactivate when the right edge passed below 0, and move a
MovingSpike vertically inside its 50px band, reversing and clamping at the
bounds. -/
def updateObstacle (gameHeight groundHeight speedNow : ℚ)
    (obstacle : Obstacle) : Obstacle :=
  let newX := obstacle.x - speedNow
  if newX + obstacle.width < 0 then
    { obstacle with active := false }
  else if obstacle.type = ObstacleType.MOVING_SPIKE then
    let newY := obstacle.y + jsOrElse obstacle.direction 1 * jsOrElse obstacle.speed 1
    let minY := gameHeight - groundHeight - obstacle.height - 50
    let maxY := gameHeight - groundHeight - obstacle.height
    if newY ≤ minY ∨ newY ≥ maxY then
      { obstacle with
          x := newX,
          y := if newY ≤ minY then minY else maxY,
          direction := some (jsOrElse obstacle.direction 1 * (-1)) }
    else
      { obstacle with x := newX, y := newY }
  else
    { obstacle with x := newX }

/-- updateObstacles from ObstacleManager.tsx: map the per-obstacle update
over the set, then filter out the inactive obstacles. -/
def updateObstacles (gameHeight groundHeight speedNow : ℚ)
    (obstacles : List Obstacle) : List Obstacle :=
  (obstacles.map (updateObstacle gameHeight groundHeight speedNow)).filter
    (fun o => o.active)

/-! Player state and collision resolution from GameEngine.tsx. -/

structure Player where
  x : ℚ
  y : ℚ
  velocityY : ℚ
  isJumping : Bool
  jumpPower : ℚ
deriving DecidableEq

structure Hitbox where
  left : ℚ
  right : ℚ
  top : ℚ
  bottom : ℚ
deriving DecidableEq

def playerHitboxOf (playerX playerY : ℚ) : Hitbox :=
  { left := playerX, right := playerX + PLAYER_WIDTH,
    top := playerY, bottom := playerY + PLAYER_HEIGHT }

def obstacleHitboxOf (o : Obstacle) : Hitbox :=
  { left := o.x, right := o.x + o.width, top := o.y, bottom := o.y + o.height }

/-- The strict axis-aligned overlap test of checkCollision. -/
def overlapsB (p q : Hitbox) : Bool :=
  decide (p.right > q.left ∧ p.left < q.right ∧ p.bottom > q.top ∧ p.top < q.bottom)

/-- The landing snap applied by checkCollision to playerRef: y is set to the
top edge minus the player height, vertical velocity zeroed, jumping cleared. -/
def landPlayerOn (player : Player) (topEdge : ℚ) : Player :=
  { player with y := topEdge - PLAYER_HEIGHT, velocityY := 0, isJumping := false }

/-- The setObstacles update of the collapsing-bridge branch of
checkCollision: every obstacle with the given id and truthy integrity has its
integrity decremented by 1. -/
def decrementBridge (bridgeId : String) (obstacles : List Obstacle) : List Obstacle :=
  obstacles.map fun o =>
    if o.id = bridgeId ∧ jsTruthy o.integrity = true then
      { o with integrity := some (jsOrElse o.integrity 0 - 1) }
    else o

/-- The outcome of checkCollision: the returned boolean plus the mutations of
playerRef and of the obstacle list. -/
structure CollisionResult where
  lethal : Bool
  player : Player
  obstacles : List Obstacle
deriving DecidableEq

/-- The loop of checkCollision over the obstacle list: the first obstacle
whose hitbox overlaps the player hitbox is resolved by archetype, obstacles
after it are not inspected. -/
def resolveFirst (player : Player) (all : List Obstacle) :
    List Obstacle → CollisionResult
  | [] => { lethal := false, player := player, obstacles := all }
  | obstacle :: rest =>
      let ph := playerHitboxOf player.x player.y
      let oh := obstacleHitboxOf obstacle
      if overlapsB ph oh then
        if obstacle.type = ObstacleType.VARIABLE_GROUND then
          { lethal := false, player := landPlayerOn player oh.top, obstacles := all }
        else if obstacle.type = ObstacleType.COLLAPSING_BRIDGE ∧
            jsTruthy obstacle.integrity = true ∧
            0 < jsOrElse obstacle.integrity 0 ∧
            ph.bottom ≤ oh.top + 5 then
          { lethal := false, player := landPlayerOn player oh.top,
            obstacles := decrementBridge obstacle.id all }
        else
          { lethal := true, player := player, obstacles := all }
      else resolveFirst player all rest

/-- checkCollision from GameEngine.tsx. -/
def checkCollision (player : Player) (obstacles : List Obstacle) : CollisionResult :=
  resolveFirst player obstacles obstacles

/-- The top edge at which the render step draws a VariableGround obstacle:
fillRect(x, y - elevation, width, height + elevation) with
elevation = obstacle.elevation || 0. -/
def variableGroundDrawTop (o : Obstacle) : ℚ :=
  o.y - jsOrElse o.elevation 0

/-! Engine state machine and per-tick loop from GameEngine.tsx. -/

inductive GameState
  | MENU
  | PLAYING
  | GAME_OVER
  | PAUSED
deriving DecidableEq

structure EngineState where
  gameState : GameState
  score : ℕ
  highScore : ℕ
  player : Player
  obstacles : List Obstacle
  audioInitialized : Bool
deriving DecidableEq

/-- The callbacks the engine fires towards its host during a tick. -/
inductive EngineEvent
  | scoreChange (score : ℕ)
  | gameOver (finalScore : ℕ)
deriving DecidableEq

/-- The initial playerRef value: x = width * 0.2,
y = height - GROUND_HEIGHT - PLAYER_HEIGHT. -/
def initialPlayer (width height : ℚ) : Player :=
  { x := width * 0.2, y := height - GROUND_HEIGHT - PLAYER_HEIGHT,
    velocityY := 0, isJumping := false, jumpPower := 0 }

/-- Construction of the engine component: the initial hook values.  The
source performs no validation of width or height whatsoever; this function is
total. -/
def initEngine (width height : ℚ) : EngineState :=
  { gameState := GameState.MENU, score := 0, highScore := 0,
    player := initialPlayer width height, obstacles := [],
    audioInitialized := false }

/-- resetGame from GameEngine.tsx, also the body of startGame. -/
def resetGame (width height : ℚ) (st : EngineState) : EngineState :=
  { st with
      player := initialPlayer width height, obstacles := [],
      score := 0, gameState := GameState.PLAYING }

/-- handleGameOver from GameEngine.tsx: switch to GAME_OVER, update the high
score when exceeded, and fire onGameOver with the current score value. -/
def handleGameOver (st : EngineState) : EngineState × List EngineEvent :=
  ({ st with
       gameState := GameState.GAME_OVER,
       highScore := if st.score > st.highScore then st.score else st.highScore },
   [EngineEvent.gameOver st.score])

/-- handleAddObstacle from GameEngine.tsx: append the spawned obstacle. -/
def handleAddObstacle (o : Obstacle) (st : EngineState) : EngineState :=
  { st with obstacles := st.obstacles ++ [o] }

/-- The jump-input step of the game loop: when audio is initialised, the
player is not airborne and shouldJump() fired, set the jump power and the
upward velocity MAX_JUMP_VELOCITY * jumpPower. -/
def applyJumpInput (audioInitialized shouldJ : Bool) (jp : ℚ) (p : Player) : Player :=
  if audioInitialized && !p.isJumping && shouldJ then
    { p with isJumping := true, jumpPower := jp, velocityY := MAX_JUMP_VELOCITY * jp }
  else p

/-- The gravity step of the game loop: velocityY += GRAVITY; y += velocityY. -/
def applyGravity (p : Player) : Player :=
  { p with velocityY := p.velocityY + GRAVITY, y := p.y + (p.velocityY + GRAVITY) }

/-- The ground clamp of the game loop. -/
def clampToGround (height : ℚ) (p : Player) : Player :=
  if p.y > height - GROUND_HEIGHT - PLAYER_HEIGHT then
    { p with
        y := height - GROUND_HEIGHT - PLAYER_HEIGHT,
        velocityY := 0, isJumping := false }
  else p

/-- The full physics portion of one tick while PLAYING. -/
def physicsStep (height : ℚ) (audioInitialized shouldJ : Bool) (jp : ℚ)
    (p : Player) : Player :=
  clampToGround height (applyGravity (applyJumpInput audioInitialized shouldJ jp p))

/-- One invocation of the update portion of gameLoop from GameEngine.tsx.
While PLAYING: physics, then collision resolution (possibly firing
handleGameOver), then unconditionally the score increment together with the
onScoreChange callback.  In every other state the tick changes nothing and
fires nothing. -/
def tick (height : ℚ) (shouldJ : Bool) (jp : ℚ) (st : EngineState) :
    EngineState × List EngineEvent :=
  if st.gameState = GameState.PLAYING then
    let p := physicsStep height st.audioInitialized shouldJ jp st.player
    let c := checkCollision p st.obstacles
    let afterCollision :=
      if c.lethal then
        handleGameOver { st with player := c.player, obstacles := c.obstacles }
      else
        ({ st with player := c.player, obstacles := c.obstacles }, [])
    (( { afterCollision.1 with score := afterCollision.1.score + 1 } ),
     afterCollision.2 ++ [EngineEvent.scoreChange (st.score + 1)])
  else (st, [])

/-- Iterate idle ticks (shouldJump false, jump power 0), accumulating the
fired events in order. -/
def runTicks (height : ℚ) : ℕ → EngineState → EngineState × List EngineEvent
  | 0, st => (st, [])
  | n + 1, st =>
      let first := tick height false 0 st
      let rest := runTicks height n first.1
      (rest.1, first.2 ++ rest.2)

/-- The final scores carried by the gameOver events of an event trace. -/
def gameOverScores (evs : List EngineEvent) : List ℕ :=
  evs.filterMap fun e =>
    match e with
    | EngineEvent.gameOver s => some s
    | _ => none

/-! Concrete scenario data used by the individual claims. -/

/-- A Spike placed over the resting position of the player on an 800 by 600
playfield: the player hitbox is 160..200 by 510..550 and the spike hitbox is
160..180 by 540..570, a strict overlap. -/
def c1Spike : Obstacle :=
  { id := "spike", type := ObstacleType.SPIKE, x := 160, y := 540,
    width := 20, height := 30, active := true }

/-- The engine state during an idle run on an 800 by 600 playfield after k
ticks: still PLAYING, score k, player resting on the ground, no obstacles,
no audio. -/
def c1State (k : ℕ) : EngineState :=
  { gameState := GameState.PLAYING, score := k, highScore := 0,
    player := initialPlayer 800 600, obstacles := [],
    audioInitialized := false }

/-- The state at the start of a run: startGame = resetGame applied to the
freshly constructed engine. -/
def c1Start : EngineState := resetGame 800 600 (initEngine 800 600)

/-- State and events after the five idle ticks 0..4 of the C1 run. -/
def c1AfterIdle : EngineState × List EngineEvent := runTicks 600 5 c1Start

/-- Tick 5 of the C1 run, taken after a lethal Spike overlap has been forced
by adding c1Spike to the obstacle set. -/
def c1LethalTick : EngineState × List EngineEvent :=
  tick 600 false 0 (handleAddObstacle c1Spike c1AfterIdle.1)

/-- The full event trace of the C1 run: five idle ticks, the lethal tick 5,
then m further idle ticks. -/
def c1Events (m : ℕ) : List EngineEvent :=
  c1AfterIdle.2 ++ c1LethalTick.2 ++ (runTicks 600 m c1LethalTick.1).2

/-- A player overlapping the VariableGround obstacle c2Ground. -/
def c2Player : Player :=
  { x := 100, y := 520, velocityY := 0, isJumping := false, jumpPower := 0 }

/-- A VariableGround obstacle with stored top edge y = 550 and elevation 30,
so its drawn top edge is 520. -/
def c2Ground : Obstacle :=
  { id := "vg", type := ObstacleType.VARIABLE_GROUND, x := 100, y := 550,
    width := 100, height := 50, active := true, elevation := some 30 }

/-- A raw intensity sequence that is non-increasing: 1, 0.9, 0.9, 0.9, ... -/
def c5raw : ℕ → ℚ := fun n => if n = 0 then 1 else 0.9

/-- A non-decreasing raw intensity sequence used as a witness input. -/
def c5inc : ℕ → ℚ := fun n => (n : ℚ)

/-- An obstacle whose right edge is already past the left playfield edge. -/
def c6Gone : Obstacle :=
  { id := "gone", type := ObstacleType.SPIKE, x := -30, y := 520,
    width := 20, height := 30, active := true }

/-- An obstacle far inside the playfield. -/
def c6Far : Obstacle :=
  { id := "far", type := ObstacleType.SPIKE, x := 500, y := 520,
    width := 20, height := 30, active := true }

/-- A MovingSpike strictly inside its vertical oscillation band. -/
def c6Mover : Obstacle :=
  { id := "mover", type := ObstacleType.MOVING_SPIKE, x := 400, y := 480,
    width := 20, height := 30, active := true,
    direction := some 1, speed := some 2 }

/-- A player standing within the 5px landing tolerance of the bridges below:
its bottom edge is 552 and the bridge top edges are 550. -/
def c7Player : Player :=
  { x := 160, y := 512, velocityY := 3, isJumping := true, jumpPower := 1 }

/-- An intact CollapsingBridge with full integrity. -/
def c7Bridge : Obstacle :=
  { id := "bridge", type := ObstacleType.COLLAPSING_BRIDGE, x := 140, y := 550,
    width := 100, height := 15, active := true,
    integrity := some 100, collapseDelay := some 500 }

/-- A collapsed CollapsingBridge: integrity has reached 0. -/
def c7Dead : Obstacle :=
  { id := "dead", type := ObstacleType.COLLAPSING_BRIDGE, x := 140, y := 550,
    width := 100, height := 15, active := true,
    integrity := some 0, collapseDelay := some 500 }

/-- A Spike overlapping the resting player of the 800 by 600 playfield. -/
def c10Spike : Obstacle :=
  { id := "s", type := ObstacleType.SPIKE, x := 160, y := 540,
    width := 20, height := 30, active := true }

/-- A PLAYING state with nonzero score whose obstacle set already overlaps
the resting player lethally. -/
def c10State : EngineState :=
  { gameState := GameState.PLAYING, score := 7, highScore := 3,
    player := initialPlayer 800 600, obstacles := [c10Spike],
    audioInitialized := false }

/-! Helper lemmas. -/

lemma getJumpPower_of_le {i : ℚ} (hi : i ≤ MIN_INTENSITY_THRESHOLD) :
    getJumpPower i = 0 := by
  rw [getJumpPower, if_pos hi]

lemma getJumpPower_of_gt {i : ℚ} (hi : MIN_INTENSITY_THRESHOLD < i) :
    getJumpPower i = 3 / 10 + (i - 1 / 20) * (14 / 19) := by
  rw [getJumpPower, if_neg (not_le.mpr hi), MIN_INTENSITY_THRESHOLD]
  norm_num
  field_simp
  ring

lemma smoothStep_eq (prev raw : ℚ) :
    smoothStep prev raw = 3 / 10 * raw + 7 / 10 * prev := by
  rw [smoothStep, SMOOTHING_FACTOR]
  norm_num

lemma smoothSeq_le_raw (s0 : ℚ) (raw : ℕ → ℚ)
    (hmono : ∀ n, raw n ≤ raw (n + 1)) (h0 : s0 ≤ raw 0) :
    ∀ n, smoothSeq s0 raw n ≤ raw n := by
  intro n
  induction n with
  | zero => exact h0
  | succ n ih =>
      have h1 : smoothSeq s0 raw (n + 1) = smoothStep (smoothSeq s0 raw n) (raw n) := rfl
      have h2 := hmono n
      rw [h1, smoothStep_eq]
      linarith

lemma raw_le_smoothSeq (s0 : ℚ) (raw : ℕ → ℚ)
    (hmono : ∀ n, raw (n + 1) ≤ raw n) (h0 : raw 0 ≤ s0) :
    ∀ n, raw n ≤ smoothSeq s0 raw n := by
  intro n
  induction n with
  | zero => exact h0
  | succ n ih =>
      have h1 : smoothSeq s0 raw (n + 1) = smoothStep (smoothSeq s0 raw n) (raw n) := rfl
      have h2 := hmono n
      rw [h1, smoothStep_eq]
      linarith

/-! Claim theorems. -/

/-- Claim C4: getJumpPower returns 0 for every intensity at most 0.05; for
intensity strictly above 0.05 it is the linear remap of the interval from
0.05 to 1 onto the interval from 0.3 to 1, hence lies between 0.3 and 1 for
intensity in that range; and it is non-decreasing in the intensity. -/
theorem c4_jump_power_shape (i j : ℚ) :
    (i ≤ MIN_INTENSITY_THRESHOLD → getJumpPower i = 0) ∧
    (MIN_INTENSITY_THRESHOLD < i →
       getJumpPower i =
         0.3 + (i - MIN_INTENSITY_THRESHOLD) / (1 - MIN_INTENSITY_THRESHOLD) * (1 - 0.3)) ∧
    (MIN_INTENSITY_THRESHOLD < i → i ≤ 1 →
       0.3 ≤ getJumpPower i ∧ getJumpPower i ≤ 1) ∧
    (i ≤ j → getJumpPower i ≤ getJumpPower j) := by
  refine ⟨fun hi => getJumpPower_of_le hi, ?_, ?_, ?_⟩
  · intro hi
    rw [getJumpPower, if_neg (not_le.mpr hi)]
  · intro hi hi1
    rw [getJumpPower_of_gt hi, MIN_INTENSITY_THRESHOLD] at *
    constructor
    · nlinarith
    · nlinarith
  · intro hij
    rcases le_or_lt j MIN_INTENSITY_THRESHOLD with hj | hj
    · rw [getJumpPower_of_le (le_trans hij hj), getJumpPower_of_le hj]
    · rcases le_or_lt i MIN_INTENSITY_THRESHOLD with hi | hi
      · rw [getJumpPower_of_le hi, getJumpPower_of_gt hj, MIN_INTENSITY_THRESHOLD] at *
        nlinarith
      · rw [getJumpPower_of_gt hi, getJumpPower_of_gt hj]
        nlinarith

/-- Witness for C4 at concrete intensities: 0.04 maps to 0, 0.5 maps into
the band from 0.3 to 1, and the map does not decrease from 0.5 to 0.75. -/
theorem c4_jump_power_shape_witness :
    getJumpPower 0.04 = 0 ∧
    (0.3 ≤ getJumpPower 0.5 ∧ getJumpPower 0.5 ≤ 1) ∧
    getJumpPower 0.5 ≤ getJumpPower 0.75 := by
  refine ⟨(c4_jump_power_shape 0.04 1).1 (by rw [MIN_INTENSITY_THRESHOLD]; norm_num),
          (c4_jump_power_shape 0.5 1).2.2.1 (by rw [MIN_INTENSITY_THRESHOLD]; norm_num)
            (by norm_num),
          (c4_jump_power_shape 0.5 0.75).2.2.2 (by norm_num)⟩

/-- Claim C5 (amended): the updated smoothed intensity equals
0.3 * raw + 0.7 * previous and lies between the minimum and the maximum of
the previous value and the raw sample.  A monotone raw sequence produces a
smoothed sequence monotone in the same direction provided the initial stored
value lies on the matching side of the first sample (at most raw 0 for a
non-decreasing sequence, at least raw 0 for a non-increasing one); the
unconditional form of the claim is refuted by c5_mono_counterexample. -/
theorem c5_smoothing_convex :
    (∀ prev raw : ℚ,
       smoothStep prev raw = 0.3 * raw + 0.7 * prev ∧
       min prev raw ≤ smoothStep prev raw ∧ smoothStep prev raw ≤ max prev raw) ∧
    (∀ (s0 : ℚ) (raw : ℕ → ℚ),
       (∀ n, raw n ≤ raw (n + 1)) → s0 ≤ raw 0 →
       ∀ n, smoothSeq s0 raw n ≤ smoothSeq s0 raw (n + 1)) ∧
    (∀ (s0 : ℚ) (raw : ℕ → ℚ),
       (∀ n, raw (n + 1) ≤ raw n) → raw 0 ≤ s0 →
       ∀ n, smoothSeq s0 raw (n + 1) ≤ smoothSeq s0 raw n) := by
  refine ⟨?_, ?_, ?_⟩
  · intro prev raw
    rw [smoothStep_eq]
    refine ⟨by norm_num, ?_, ?_⟩
    · rcases le_total prev raw with h | h
      · rw [min_eq_left h]; linarith
      · rw [min_eq_right h]; linarith
    · rcases le_total prev raw with h | h
      · rw [max_eq_right h]; linarith
      · rw [max_eq_left h]; linarith
  · intro s0 raw hmono h0 n
    have hle := smoothSeq_le_raw s0 raw hmono h0 n
    have h1 : smoothSeq s0 raw (n + 1) = smoothStep (smoothSeq s0 raw n) (raw n) := rfl
    rw [h1, smoothStep_eq]
    linarith
  · intro s0 raw hmono h0 n
    have hle := raw_le_smoothSeq s0 raw hmono h0 n
    have h1 : smoothSeq s0 raw (n + 1) = smoothStep (smoothSeq s0 raw n) (raw n) := rfl
    rw [h1, smoothStep_eq]
    linarith

/-- Witness for C5 at concrete inputs: one smoothing step from previous 2
and raw 5, and the non-decreasing sequence 0, 1, 2, ... started from the
stored value 0. -/
theorem c5_smoothing_convex_witness :
    (smoothStep 2 5 = 0.3 * 5 + 0.7 * 2 ∧
       min 2 5 ≤ smoothStep 2 5 ∧ smoothStep 2 5 ≤ max 2 5) ∧
    smoothSeq 0 c5inc 1 ≤ smoothSeq 0 c5inc 2 := by
  refine ⟨(c5_smoothing_convex.1 2 5), ?_⟩
  refine c5_smoothing_convex.2.1 0 c5inc ?_ ?_ 1
  · intro n
    simp [c5inc]
  · simp [c5inc]

/-- Counterexample for C5 as stated: from the stored initial smoothed value
0 of the source, the non-increasing raw sequence 1, 0.9, 0.9, ... produces
smoothed values 0.3 then 0.48, which increase; so a monotonic raw sequence
does not in general produce a smoothed sequence monotonic in the same
direction. -/
theorem c5_mono_counterexample :
    c5raw 1 < c5raw 0 ∧ c5raw 2 ≤ c5raw 1 ∧
    smoothSeq 0 c5raw 1 = 0.3 ∧ smoothSeq 0 c5raw 2 = 0.48 ∧
    smoothSeq 0 c5raw 1 < smoothSeq 0 c5raw 2 := by
  have h0 : smoothSeq 0 c5raw 0 = 0 := rfl
  have h1 : smoothSeq 0 c5raw 1 = 0.3 := by
    have h : smoothSeq 0 c5raw 1 = smoothStep (smoothSeq 0 c5raw 0) (c5raw 0) := rfl
    rw [h, h0, smoothStep_eq]
    norm_num [c5raw]
  have h2 : smoothSeq 0 c5raw 2 = 0.48 := by
    have h : smoothSeq 0 c5raw 2 = smoothStep (smoothSeq 0 c5raw 1) (c5raw 1) := rfl
    rw [h, h1, smoothStep_eq]
    norm_num [c5raw]
  refine ⟨by norm_num [c5raw], by norm_num [c5raw], h1, h2, ?_⟩
  rw [h1, h2]
  norm_num

/-- Claim C8: the archetype drawn by the generator follows the cumulative
thresholds 0.4, 0.7, 0.85 over the uniform draw, the archetype stored in the
generated obstacle is exactly the drawn one, and the draws 0.2, 0.5, 0.8,
0.95 produce Spike, MovingSpike, VariableGround, CollapsingBridge. -/
theorem c8_archetype_thresholds (u gw gh g s : ℚ) (idStr : String) (r1 r2 r3 : ℚ) :
    (0 ≤ u → u < 0.4 → chooseObstacleType u = ObstacleType.SPIKE) ∧
    (0.4 ≤ u → u < 0.7 → chooseObstacleType u = ObstacleType.MOVING_SPIKE) ∧
    (0.7 ≤ u → u < 0.85 → chooseObstacleType u = ObstacleType.VARIABLE_GROUND) ∧
    (0.85 ≤ u → u < 1 → chooseObstacleType u = ObstacleType.COLLAPSING_BRIDGE) ∧
    (generateObstacle gw gh g s idStr u r1 r2 r3).type = chooseObstacleType u ∧
    chooseObstacleType 0.2 = ObstacleType.SPIKE ∧
    chooseObstacleType 0.5 = ObstacleType.MOVING_SPIKE ∧
    chooseObstacleType 0.8 = ObstacleType.VARIABLE_GROUND ∧
    chooseObstacleType 0.95 = ObstacleType.COLLAPSING_BRIDGE := by
  refine ⟨?_, ?_, ?_, ?_, ?_, by norm_num [chooseObstacleType], by norm_num [chooseObstacleType],
          by norm_num [chooseObstacleType], by norm_num [chooseObstacleType]⟩
  · intro _ h4
    rw [chooseObstacleType, if_pos h4]
  · intro h4 h7
    rw [chooseObstacleType, if_neg (not_lt.mpr h4), if_pos h7]
  · intro h7 h85
    have h4 : ¬ u < 0.4 := by norm_num at *; linarith
    rw [chooseObstacleType, if_neg h4, if_neg (not_lt.mpr h7), if_pos h85]
  · intro h85 _
    have h4 : ¬ u < 0.4 := by norm_num at *; linarith
    have h7 : ¬ u < 0.7 := by norm_num at *; linarith
    rw [chooseObstacleType, if_neg h4, if_neg h7, if_neg (not_lt.mpr h85)]
  · cases h : chooseObstacleType u <;>
      simp [generateObstacle, h]

/-- Witness for C8 at the concrete draws named by the claim. -/
theorem c8_archetype_thresholds_witness :
    chooseObstacleType 0.2 = ObstacleType.SPIKE ∧
    chooseObstacleType 0.5 = ObstacleType.MOVING_SPIKE ∧
    chooseObstacleType 0.8 = ObstacleType.VARIABLE_GROUND ∧
    chooseObstacleType 0.95 = ObstacleType.COLLAPSING_BRIDGE ∧
    (generateObstacle 800 600 50 0 "w" 0.2 0 0 0).type = ObstacleType.SPIKE := by
  have h2 := (c8_archetype_thresholds 0.2 800 600 50 0 "w" 0 0 0).1 (by norm_num) (by norm_num)
  have h5 := (c8_archetype_thresholds 0.5 800 600 50 0 "w" 0 0 0).2.1 (by norm_num) (by norm_num)
  have h8 := (c8_archetype_thresholds 0.8 800 600 50 0 "w" 0 0 0).2.2.1 (by norm_num) (by norm_num)
  have h95 := (c8_archetype_thresholds 0.95 800 600 50 0 "w" 0 0 0).2.2.2.1 (by norm_num) (by norm_num)
  have hty := (c8_archetype_thresholds 0.2 800 600 50 0 "w" 0 0 0).2.2.2.2.1
  exact ⟨h2, h5, h8, h95, by rw [hty, h2]⟩

/-- Claim C9: difficulty is min 1 (score / 100), the spawn interval is
max 800 (2500 - 1700 * difficulty) milliseconds, the base horizontal speed
is 3 + 4 * difficulty, and a CollapsingBridge spawned at score 0 carries
integrity 100 and collapseDelay 500 while at score 100 its collapseDelay is
200. -/
theorem c9_difficulty_scaling (score gw gh g : ℚ) (idStr : String) (r1 r2 r3 : ℚ) :
    getDifficulty score = min 1 (score / 100) ∧
    spawnRate score = max 800 (2500 - 1700 * getDifficulty score) ∧
    obstacleSpeedAt score = 3 + 4 * getDifficulty score ∧
    (generateObstacle gw gh g 0 idStr 0.9 r1 r2 r3).integrity = some 100 ∧
    (generateObstacle gw gh g 0 idStr 0.9 r1 r2 r3).collapseDelay = some 500 ∧
    (generateObstacle gw gh g 100 idStr 0.9 r1 r2 r3).collapseDelay = some 200 := by
  refine ⟨rfl, rfl, rfl, ?_, ?_, ?_⟩ <;>
    norm_num [generateObstacle, chooseObstacleType, getDifficulty]

/-- The collision loop skips every leading obstacle whose hitbox does not
overlap the player hitbox. -/
lemma resolveFirst_append_of_no_overlap (player : Player) (all pre rest : List Obstacle)
    (h : ∀ o ∈ pre, overlapsB (playerHitboxOf player.x player.y) (obstacleHitboxOf o) = false) :
    resolveFirst player all (pre ++ rest) = resolveFirst player all rest := by
  induction pre with
  | nil => rfl
  | cons o os ih =>
      have ho := h o (List.mem_cons_self o os)
      have hrest : ∀ o2 ∈ os,
          overlapsB (playerHitboxOf player.x player.y) (obstacleHitboxOf o2) = false :=
        fun o2 ho2 => h o2 (List.mem_cons_of_mem o ho2)
      rw [List.cons_append, resolveFirst, ho]
      simp only [Bool.false_eq_true, if_false]
      exact ih hrest

/-- Claim C2 (amended): when the player overlaps a VariableGround obstacle
that is the first overlapping obstacle in the set, the resolver reports no
collision and snaps the player onto the stored, un-offset top edge y of the
obstacle (player y becomes y minus the player height); the elevation field
offsets only the drawn top edge (y minus elevation), so whenever elevation
is nonzero the collision edge differs from the drawn edge. -/
theorem c2_variable_ground_uses_unoffset_top (player : Player) (vg : Obstacle)
    (pre post : List Obstacle)
    (hty : vg.type = ObstacleType.VARIABLE_GROUND)
    (hover : overlapsB (playerHitboxOf player.x player.y) (obstacleHitboxOf vg) = true)
    (hpre : ∀ o ∈ pre,
       overlapsB (playerHitboxOf player.x player.y) (obstacleHitboxOf o) = false) :
    checkCollision player (pre ++ vg :: post) =
      { lethal := false, player := landPlayerOn player vg.y,
        obstacles := pre ++ vg :: post } ∧
    (landPlayerOn player vg.y).y = vg.y - PLAYER_HEIGHT ∧
    (jsOrElse vg.elevation 0 ≠ 0 →
       (landPlayerOn player vg.y).y ≠ variableGroundDrawTop vg - PLAYER_HEIGHT) := by
  refine ⟨?_, rfl, ?_⟩
  · rw [checkCollision,
        resolveFirst_append_of_no_overlap player (pre ++ vg :: post) pre (vg :: post) hpre,
        resolveFirst, hover]
    simp [hty, obstacleHitboxOf]
  · intro he
    show vg.y - PLAYER_HEIGHT ≠ vg.y - jsOrElse vg.elevation 0 - PLAYER_HEIGHT
    intro hcontra
    apply he
    linarith

/-- Witness for C2 (amended) at the concrete player and obstacle of the
counterexample scenario. -/
theorem c2_variable_ground_witness :
    checkCollision c2Player ([] ++ c2Ground :: []) =
      { lethal := false, player := landPlayerOn c2Player c2Ground.y,
        obstacles := [] ++ c2Ground :: [] } ∧
    (landPlayerOn c2Player c2Ground.y).y = c2Ground.y - PLAYER_HEIGHT ∧
    (jsOrElse c2Ground.elevation 0 ≠ 0 →
       (landPlayerOn c2Player c2Ground.y).y ≠ variableGroundDrawTop c2Ground - PLAYER_HEIGHT) := by
  refine c2_variable_ground_uses_unoffset_top c2Player c2Ground [] [] rfl ?_ (by simp)
  rw [overlapsB, decide_eq_true_eq]
  norm_num [playerHitboxOf, obstacleHitboxOf, c2Player, c2Ground, PLAYER_WIDTH, PLAYER_HEIGHT]

/-- Counterexample for C2 as stated: for the overlapping player at y = 520
and the VariableGround obstacle with stored top edge 550 and elevation 30,
the resolver snaps the player to 550 - 40 = 510, not onto the drawn edge
550 - 30 = 520 (which would give 480): the collision edge is the un-offset
y, not y minus elevation. -/
theorem c2_elevation_counterexample :
    (checkCollision c2Player [c2Ground]).player.y = c2Ground.y - PLAYER_HEIGHT ∧
    variableGroundDrawTop c2Ground = c2Ground.y - 30 ∧
    (checkCollision c2Player [c2Ground]).player.y ≠
      variableGroundDrawTop c2Ground - PLAYER_HEIGHT := by
  have hover : overlapsB (playerHitboxOf c2Player.x c2Player.y) (obstacleHitboxOf c2Ground) = true := by
    rw [overlapsB, decide_eq_true_eq]
    norm_num [playerHitboxOf, obstacleHitboxOf, c2Player, c2Ground, PLAYER_WIDTH, PLAYER_HEIGHT]
  have hres : checkCollision c2Player [c2Ground] =
      { lethal := false, player := landPlayerOn c2Player c2Ground.y, obstacles := [c2Ground] } := by
    rw [checkCollision, resolveFirst, hover]
    simp [c2Ground, obstacleHitboxOf]
  rw [hres]
  norm_num [landPlayerOn, variableGroundDrawTop, jsOrElse, c2Ground, c2Player, PLAYER_HEIGHT]

/-- Claim C7: when the player overlaps a CollapsingBridge that is the first
overlapping obstacle: with integrity v strictly positive and the player
bottom edge within 5px of the bridge top edge, the resolver reports a
landing (snap to top edge minus player height, vertical velocity zeroed,
jumping cleared) and decrements the integrity of that bridge by 1 for the
frame; with falsy integrity (reached 0 or absent) any overlap is lethal. -/
theorem c7_collapsing_bridge (player : Player) (b : Obstacle) (pre post : List Obstacle)
    (hty : b.type = ObstacleType.COLLAPSING_BRIDGE)
    (hover : overlapsB (playerHitboxOf player.x player.y) (obstacleHitboxOf b) = true)
    (hpre : ∀ o ∈ pre,
       overlapsB (playerHitboxOf player.x player.y) (obstacleHitboxOf o) = false) :
    (∀ v : ℚ, b.integrity = some v → 0 < v → player.y + PLAYER_HEIGHT ≤ b.y + 5 →
       checkCollision player (pre ++ b :: post) =
         { lethal := false, player := landPlayerOn player b.y,
           obstacles := decrementBridge b.id (pre ++ b :: post) } ∧
       decrementBridge b.id [b] = [{ b with integrity := some (v - 1) }]) ∧
    (jsTruthy b.integrity = false →
       checkCollision player (pre ++ b :: post) =
         { lethal := true, player := player, obstacles := pre ++ b :: post }) := by
  constructor
  · intro v hv hvpos htol
    have hvne : v ≠ 0 := ne_of_gt hvpos
    have htruthy : jsTruthy b.integrity = true := by
      rw [hv, jsTruthy, decide_eq_true_eq]
      exact hvne
    have hval : jsOrElse b.integrity 0 = v := by
      rw [hv, jsOrElse, if_neg hvne]
    constructor
    · rw [checkCollision,
          resolveFirst_append_of_no_overlap player (pre ++ b :: post) pre (b :: post) hpre,
          resolveFirst, hover]
      simp only [Bool.true_eq_false, if_true]
      rw [if_neg (by rw [hty]; intro hcontra; cases hcontra)]
      rw [if_pos ⟨hty, htruthy, by rw [hval]; exact hvpos,
            by simpa [playerHitboxOf, obstacleHitboxOf] using htol⟩]
      rfl
    · rw [decrementBridge]
      simp only [List.map_cons, List.map_nil]
      rw [if_pos ⟨trivial, htruthy⟩, hval]
  · intro hfalsy
    rw [checkCollision,
        resolveFirst_append_of_no_overlap player (pre ++ b :: post) pre (b :: post) hpre,
        resolveFirst, hover]
    simp only [Bool.true_eq_false, if_true]
    rw [if_neg (by rw [hty]; intro hcontra; cases hcontra)]
    rw [if_neg (by intro hcontra; rw [hfalsy] at hcontra; cases hcontra.2.1)]

/-- Witness for C7: the intact bridge supports the overlapping player within
tolerance and loses one unit of integrity; the collapsed bridge kills. -/
theorem c7_collapsing_bridge_witness :
    (checkCollision c7Player ([] ++ c7Bridge :: []) =
       { lethal := false, player := landPlayerOn c7Player c7Bridge.y,
         obstacles := decrementBridge c7Bridge.id ([] ++ c7Bridge :: []) } ∧
     decrementBridge c7Bridge.id [c7Bridge] = [{ c7Bridge with integrity := some (100 - 1) }]) ∧
    checkCollision c7Player ([] ++ c7Dead :: []) =
      { lethal := true, player := c7Player, obstacles := [] ++ c7Dead :: [] } := by
  constructor
  · exact (c7_collapsing_bridge c7Player c7Bridge [] [] rfl
      (by rw [overlapsB, decide_eq_true_eq]
          norm_num [playerHitboxOf, obstacleHitboxOf, c7Player, c7Bridge, PLAYER_WIDTH, PLAYER_HEIGHT])
      (by simp)).1 100 rfl (by norm_num)
      (by norm_num [c7Player, c7Bridge, PLAYER_HEIGHT])
  · exact (c7_collapsing_bridge c7Player c7Dead [] [] rfl
      (by rw [overlapsB, decide_eq_true_eq]
          norm_num [playerHitboxOf, obstacleHitboxOf, c7Player, c7Dead, PLAYER_WIDTH, PLAYER_HEIGHT])
      (by simp)).2 (by rw [c7Dead]; rfl)

/-- Claim C6: one updater call decrements the x of every surviving obstacle
by the current speed; an obstacle whose right edge x + width is below 0
after the move is marked inactive and filtered out of the returned set (an
obstacle at x = -30 with width 20 is removed, one at x = 500 moves to
500 - speed and stays); a MovingSpike additionally moves y by
direction * speed inside the 50px band above its resting line, reversing
the direction and clamping y when a bound is reached. -/
theorem c6_update_obstacles (gh g sp : ℚ) (o : Obstacle) (d sv : ℚ) :
    (o.x - sp + o.width < 0 →
       (updateObstacle gh g sp o).active = false ∧
       updateObstacles gh g sp [o] = []) ∧
    (¬ (o.x - sp + o.width < 0) → o.type ≠ ObstacleType.MOVING_SPIKE →
       updateObstacle gh g sp o = { o with x := o.x - sp }) ∧
    (¬ (o.x - sp + o.width < 0) → o.type = ObstacleType.MOVING_SPIKE →
       o.direction = some d → o.speed = some sv → d ≠ 0 → sv ≠ 0 →
       ((gh - g - o.height - 50 < o.y + d * sv → o.y + d * sv < gh - g - o.height →
           updateObstacle gh g sp o = { o with x := o.x - sp, y := o.y + d * sv }) ∧
        (o.y + d * sv ≤ gh - g - o.height - 50 →
           updateObstacle gh g sp o =
             { o with
                 x := o.x - sp, y := gh - g - o.height - 50,
                 direction := some (-d) }) ∧
        (gh - g - o.height ≤ o.y + d * sv →
           updateObstacle gh g sp o =
             { o with
                 x := o.x - sp, y := gh - g - o.height,
                 direction := some (-d) }))) ∧
    (0 < sp → updateObstacles gh g sp [c6Gone] = []) ∧
    (0 < sp → sp < 520 →
       updateObstacles gh g sp [c6Far] = [{ c6Far with x := 500 - sp }]) := by
  refine ⟨?_, ?_, ?_, ?_, ?_⟩
  · intro hcull
    constructor
    · simp only [updateObstacle]
      rw [if_pos hcull]
    · simp only [updateObstacles, updateObstacle, List.map_cons, List.map_nil]
      rw [if_pos hcull]
      simp [List.filter]
  · intro hncull hnms
    simp only [updateObstacle]
    rw [if_neg hncull, if_neg hnms]
  · intro hncull hms hdir hspd hdne hsvne
    have hd : jsOrElse o.direction 1 = d := by rw [hdir, jsOrElse, if_neg hdne]
    have hsv : jsOrElse o.speed 1 = sv := by rw [hspd, jsOrElse, if_neg hsvne]
    have hneg : d * (-1) = -d := by ring
    refine ⟨?_, ?_, ?_⟩
    · intro hlo hhi
      simp only [updateObstacle, hd, hsv]
      rw [if_neg hncull, if_pos hms,
          if_neg (by rw [not_or]; exact ⟨not_le.mpr hlo, not_le.mpr hhi⟩)]
    · intro hlo
      have hband : (50 : ℚ) > 0 := by norm_num
      simp only [updateObstacle, hd, hsv, hneg]
      rw [if_neg hncull, if_pos hms, if_pos (Or.inl hlo), if_pos hlo]
    · intro hhi
      have hnotlo : ¬ o.y + d * sv ≤ gh - g - o.height - 50 := by linarith
      simp only [updateObstacle, hd, hsv, hneg]
      rw [if_neg hncull, if_pos hms, if_pos (Or.inr hhi), if_neg hnotlo]
  · intro hsp
    have hcull : c6Gone.x - sp + c6Gone.width < 0 := by
      rw [c6Gone]
      norm_num
      linarith
    simp only [updateObstacles, updateObstacle, List.map_cons, List.map_nil]
    rw [if_pos hcull]
    simp [List.filter]
  · intro hsp hsp520
    have hncull : ¬ c6Far.x - sp + c6Far.width < 0 := by
      rw [c6Far]
      norm_num
      linarith
    have hnms : c6Far.type ≠ ObstacleType.MOVING_SPIKE := by
      rw [c6Far]
      intro hcontra
      cases hcontra
    simp only [updateObstacles, updateObstacle, List.map_cons, List.map_nil]
    rw [if_neg hncull, if_neg hnms]
    have hx : c6Far.x - sp = 500 - sp := by rw [c6Far]
    rw [hx]
    simp [List.filter, c6Far]

/-- Witness for C6 at the concrete obstacles of the claim with speed 3: the
off-screen obstacle is removed, the far one moves by 3 and stays, and the
in-band MovingSpike moves down by direction times speed. -/
theorem c6_update_obstacles_witness :
    (updateObstacle 600 50 3 c6Gone).active = false ∧
    updateObstacles 600 50 3 [c6Gone] = [] ∧
    updateObstacle 600 50 3 c6Far = { c6Far with x := c6Far.x - 3 } ∧
    updateObstacle 600 50 3 c6Mover =
      { c6Mover with x := c6Mover.x - 3, y := c6Mover.y + 1 * 2 } ∧
    updateObstacles 600 50 3 [c6Far] = [{ c6Far with x := 500 - 3 }] := by
  have hgone := (c6_update_obstacles 600 50 3 c6Gone 0 0).1
    (by rw [c6Gone]; norm_num)
  have hfar := (c6_update_obstacles 600 50 3 c6Far 0 0).2.1
    (by rw [c6Far]; norm_num) (by rw [c6Far]; intro hcontra; cases hcontra)
  have hmover := ((c6_update_obstacles 600 50 3 c6Mover 1 2).2.2.1
    (by rw [c6Mover]; norm_num) rfl rfl rfl (by norm_num) (by norm_num)).1
    (by rw [c6Mover]; norm_num) (by rw [c6Mover]; norm_num)
  have hfarlist := (c6_update_obstacles 600 50 3 c6Far 0 0).2.2.2.2
    (by norm_num) (by norm_num)
  exact ⟨hgone.1, hgone.2, hfar, hmover, hfarlist⟩

/-- gameOverScores distributes over trace concatenation. -/
lemma gameOverScores_append (a b : List EngineEvent) :
    gameOverScores (a ++ b) = gameOverScores a ++ gameOverScores b := by
  simp [gameOverScores]

/-- A tick in any state other than PLAYING changes nothing and fires no
callback. -/
lemma tick_not_playing (h : ℚ) (sj : Bool) (jp : ℚ) (st : EngineState)
    (hst : ¬ st.gameState = GameState.PLAYING) : tick h sj jp st = (st, []) := by
  rw [tick, if_neg hst]

/-- Iterated ticks in any state other than PLAYING change nothing and fire
no callback. -/
lemma runTicks_not_playing (h : ℚ) (n : ℕ) (st : EngineState)
    (hst : ¬ st.gameState = GameState.PLAYING) : runTicks h n st = (st, []) := by
  induction n with
  | zero => rfl
  | succ n ih => simp [runTicks, tick_not_playing h false 0 st hst, ih]

/-- With no audio and no jump input, the player resting on the ground of
the 800 by 600 playfield stays put: gravity is applied and immediately
clamped away. -/
lemma physics_idle :
    physicsStep 600 false false 0 (initialPlayer 800 600) = initialPlayer 800 600 := by
  norm_num [physicsStep, applyJumpInput, applyGravity, clampToGround, initialPlayer,
    GRAVITY, GROUND_HEIGHT, PLAYER_HEIGHT]

/-- One idle tick of the C1 run: the state advances from score k to score
k + 1, firing exactly the scoreChange callback. -/
lemma c1_tick_idle (k : ℕ) :
    tick 600 false 0 (c1State k) = (c1State (k + 1), [EngineEvent.scoreChange (k + 1)]) := by
  simp only [tick, c1State]
  norm_num [physics_idle, checkCollision, resolveFirst]

/-- Iterated idle ticks of the C1 run: after n ticks from score k the state
is at score k + n and no gameOver event has fired. -/
lemma c1_runTicks_idle (n : ℕ) : ∀ k : ℕ,
    (runTicks 600 n (c1State k)).1 = c1State (k + n) ∧
    gameOverScores (runTicks 600 n (c1State k)).2 = [] := by
  induction n with
  | zero =>
      intro k
      exact ⟨rfl, rfl⟩
  | succ n ih =>
      intro k
      have h2 := ih (k + 1)
      have hplus : k + 1 + n = k + (n + 1) := by omega
      constructor
      · simp only [runTicks, c1_tick_idle k]
        rw [h2.1, hplus]
      · simp only [runTicks, c1_tick_idle k, gameOverScores_append]
        rw [h2.2]
        rfl

/-- The run start state startGame = resetGame of the fresh engine is the
idle state at score 0. -/
lemma c1Start_eq : c1Start = c1State 0 := rfl

/-- The forced Spike overlap of the C1 run is lethal: the resolver reports
a collision for the resting player against c1Spike. -/
lemma c1_collision :
    checkCollision (initialPlayer 800 600) [c1Spike] =
      { lethal := true, player := initialPlayer 800 600, obstacles := [c1Spike] } := by
  have hover : overlapsB (playerHitboxOf (initialPlayer 800 600).x (initialPlayer 800 600).y)
      (obstacleHitboxOf c1Spike) = true := by
    rw [overlapsB, decide_eq_true_eq]
    norm_num [playerHitboxOf, obstacleHitboxOf, initialPlayer, c1Spike,
      PLAYER_WIDTH, PLAYER_HEIGHT, GROUND_HEIGHT]
  rw [checkCollision, resolveFirst, hover]
  simp [c1Spike]

/-- Tick 5 of the C1 run: the lethal overlap fires gameOver 5 and then the
score update still runs, firing scoreChange 6. -/
lemma c1_lethal_tick :
    tick 600 false 0 (handleAddObstacle c1Spike (c1State 5)) =
      ({ gameState := GameState.GAME_OVER, score := 6, highScore := 5,
         player := initialPlayer 800 600, obstacles := [c1Spike],
         audioInitialized := false },
       [EngineEvent.gameOver 5, EngineEvent.scoreChange 6]) := by
  simp only [handleAddObstacle, c1State, List.nil_append]
  simp only [tick]
  norm_num [physics_idle, c1_collision, handleGameOver]

/-- The state after the lethal tick 5 of the C1 run. -/
lemma c1_lethal_state :
    c1LethalTick.1.gameState = GameState.GAME_OVER ∧
    gameOverScores c1LethalTick.2 = [5] := by
  have hstate : c1AfterIdle.1 = c1State 5 := by
    have h := (c1_runTicks_idle 5 0).1
    rw [c1AfterIdle, c1Start_eq]
    simpa using h
  rw [c1LethalTick, hstate, c1_lethal_tick]
  exact ⟨rfl, rfl⟩

/-- Claim C1: in a run started at score 0 whose ticks 0 through 4 are idle
and on whose tick 5 a lethal Spike overlap is forced, the engine fires
onGameOver with final score 5 exactly once; no further gameOver event
occurs on any of the m subsequent ticks of the same run, for any m. -/
theorem c1_game_over_exactly_once (m : ℕ) : gameOverScores (c1Events m) = [5] := by
  have hidle : gameOverScores c1AfterIdle.2 = [] := by
    have h := (c1_runTicks_idle 5 0).2
    rw [c1AfterIdle, c1Start_eq]
    exact h
  have htail : (runTicks 600 m c1LethalTick.1).2 = [] := by
    rw [runTicks_not_playing 600 m c1LethalTick.1
      (by rw [c1_lethal_state.1]; intro hcontra; cases hcontra)]
  rw [c1Events, gameOverScores_append, gameOverScores_append, hidle, htail,
    c1_lethal_state.2]
  rfl

/-- Claim C3 (amended): the engine performs no validation of its dimensions:
construction succeeds for every width and height, including non-positive
ones, yielding the MENU state with the player placed at x = width * 0.2 and
y = height - 90; for any non-positive height the resting player position is
already negative, i.e. outside the playfield. -/
theorem c3_construction_unvalidated (w h : ℚ) :
    initEngine w h =
      { gameState := GameState.MENU, score := 0, highScore := 0,
        player := { x := w * 0.2, y := h - GROUND_HEIGHT - PLAYER_HEIGHT,
                    velocityY := 0, isJumping := false, jumpPower := 0 },
        obstacles := [], audioInitialized := false } ∧
    (h ≤ 0 → (initEngine w h).player.y < 0) := by
  refine ⟨rfl, ?_⟩
  intro hh
  show h - GROUND_HEIGHT - PLAYER_HEIGHT < 0
  rw [GROUND_HEIGHT, PLAYER_HEIGHT]
  linarith

/-- Witness for C3 (amended) at width 0 and height 0. -/
theorem c3_construction_unvalidated_witness :
    initEngine 0 0 =
      { gameState := GameState.MENU, score := 0, highScore := 0,
        player := { x := 0 * 0.2, y := 0 - GROUND_HEIGHT - PLAYER_HEIGHT,
                    velocityY := 0, isJumping := false, jumpPower := 0 },
        obstacles := [], audioInitialized := false } ∧
    (initEngine 0 0).player.y < 0 :=
  ⟨(c3_construction_unvalidated 0 0).1,
   (c3_construction_unvalidated 0 0).2 (by norm_num)⟩

/-- Counterexample for C3 as stated: construction with the nonsensical
dimensions width 0 and height 0 is not rejected; it produces a definite
engine state whose resting player sits at y = -90, outside any playfield:
the constructor is total and performs no validation. -/
theorem c3_rejects_counterexample :
    initEngine 0 0 =
      { gameState := GameState.MENU, score := 0, highScore := 0,
        player := { x := 0, y := -90, velocityY := 0, isJumping := false, jumpPower := 0 },
        obstacles := [], audioInitialized := false } ∧
    (initEngine 0 0).player.y < 0 := by
  constructor
  · norm_num [initEngine, initialPlayer, GROUND_HEIGHT, PLAYER_HEIGHT]
  · norm_num [initEngine, initialPlayer, GROUND_HEIGHT, PLAYER_HEIGHT]

/-- Claim C10: on a tick whose collision resolution is lethal, after game
over is signalled the tick body still runs the score update: the resulting
score is the old score plus one, the state is GAME_OVER, and the fired
callbacks are exactly onGameOver with the old score followed by
onScoreChange with the incremented score. -/
theorem c10_score_update_after_game_over (h : ℚ) (sj : Bool) (jp : ℚ) (st : EngineState)
    (hplay : st.gameState = GameState.PLAYING)
    (hlethal : (checkCollision (physicsStep h st.audioInitialized sj jp st.player)
      st.obstacles).lethal = true) :
    (tick h sj jp st).1.score = st.score + 1 ∧
    (tick h sj jp st).1.gameState = GameState.GAME_OVER ∧
    (tick h sj jp st).2 = [EngineEvent.gameOver st.score,
      EngineEvent.scoreChange (st.score + 1)] := by
  simp [tick, hplay, hlethal, handleGameOver]

/-- Witness for C10: the lethal tick from the concrete PLAYING state at
score 7 yields score 8, state GAME_OVER, and the callbacks gameOver 7 then
scoreChange 8. -/
theorem c10_score_update_witness :
    (tick 600 false 0 c10State).1.score = 8 ∧
    (tick 600 false 0 c10State).1.gameState = GameState.GAME_OVER ∧
    (tick 600 false 0 c10State).2 = [EngineEvent.gameOver 7, EngineEvent.scoreChange 8] := by
  have hl : (checkCollision (physicsStep 600 c10State.audioInitialized false 0 c10State.player)
      c10State.obstacles).lethal = true := by
    show (checkCollision (physicsStep 600 false false 0 (initialPlayer 800 600))
      c10State.obstacles).lethal = true
    rw [physics_idle]
    have hover : overlapsB (playerHitboxOf (initialPlayer 800 600).x (initialPlayer 800 600).y)
        (obstacleHitboxOf c10Spike) = true := by
      rw [overlapsB, decide_eq_true_eq]
      norm_num [playerHitboxOf, obstacleHitboxOf, initialPlayer, c10Spike,
        PLAYER_WIDTH, PLAYER_HEIGHT, GROUND_HEIGHT]
    show (resolveFirst (initialPlayer 800 600) c10State.obstacles c10State.obstacles).lethal = true
    rw [show c10State.obstacles = [c10Spike] from rfl]
    rw [resolveFirst, hover]
    simp [c10Spike]
  have h := c10_score_update_after_game_over 600 false 0 c10State rfl hl
  simpa using h

end Vomo
